import Mathlib

set_option maxRecDepth 40000

/-!
Shallow embedding of `src/gas_price.go` (package `gas`).

The package has two parts:

* the unit converter `parseGasPriceToWei`, which multiplies a raw
  `float64` quote by `conversionFactor = big.NewFloat(100000000)` using
  `math/big.Float` arithmetic and rejects non-integral results, and
* the cached suggester (`NewGasPriceSuggester`,
  `gasPriceManager.suggestCachedGasPrice`) built on the tier dispatcher
  `parseSuggestedGasPrice`.

Modelling conventions:

* A binary floating-point value (`float64` as well as `math/big.Float`)
  is a `FloatVal`: an integer mantissa times a power of two.  A finite
  `float64` is a `FloatVal` satisfying `Float64Representable`
  (53-bit mantissa, IEEE-754 binary64 exponent range).
* `big.NewFloat(x)` is exact for every finite `float64` and produces a
  value of precision 53; `new(big.Float).Mul(x, y)` on two such values
  rounds the exact product to 53 significant bits, nearest ties to even
  (`big.Float`'s default rounding mode).  `bigFloatMul53` models this:
  the exact mantissa/exponent product followed by `fpRound53`.
  `FloatVal.isInt` and `FloatVal.toInt` model `big.Float.IsInt` and the
  (exact, because guarded by `IsInt`) conversion `big.Float.Int`.
* `time.Time` and `time.Duration` are integer nanosecond counts.
* The HTTP fetch `loadGasPrices` is abstracted by the outcome it would
  produce at the moment it is called, passed to each operation as an
  explicit `Except GasError ethGasStationResponse` argument
  (`Except.error` models Go's `(zeroValue, err)` return).
* A Go `(*big.Int, error)` pair is an `Except GasError ℤ`:
  `Except.error e` is the `(nil, err)` case.
* `suggestCachedGasPrice` returns, next to the Go method's result, the
  updated manager state and a `Bool` recording whether `loadGasPrices`
  was called (instrumentation for the fetch-count properties).
-/

namespace GoGas

/-- Errors surfaced by package `gas`: transport or decode failures from
the oracle (carrying their message), the unknown-priority error of
`parseSuggestedGasPrice` (src/gas_price.go:168), and the non-integral
conversion error of `parseGasPriceToWei` (src/gas_price.go:177). -/
inductive GasError where
  | fetch (msg : String)
  | unknownTier
  | nonIntegral
deriving DecidableEq

deriving instance DecidableEq for Except

/-- Number of binary digits of `n`, with fuel (structural recursion). -/
def bitlenAux : ℕ → ℕ → ℕ
  | 0, _ => 0
  | fuel + 1, n => if n = 0 then 0 else bitlenAux fuel (n / 2) + 1

/-- Number of binary digits of `n` (`bitlen 0 = 0`, `bitlen 5 = 3`). -/
def bitlen (n : ℕ) : ℕ := bitlenAux (n + 1) n

/-- A binary floating-point value `mant * 2 ^ exp`.  This is the value
form shared by Go's `float64` and `math/big.Float` (which stores a
sign, a mantissa and a base-two exponent). -/
structure FloatVal where
  mant : ℤ
  exp : ℤ
deriving DecidableEq

/-- The finite IEEE-754 binary64 values: a 53-bit mantissa and the
binary64 exponent range (subnormals reach `2 ^ (-1074)`, the largest
finite double is `(2 ^ 53 - 1) * 2 ^ 971`). -/
def Float64Representable (x : FloatVal) : Prop :=
  x.mant.natAbs < 2 ^ 53 ∧ -1074 ≤ x.exp ∧ x.exp ≤ 971

instance (x : FloatVal) : Decidable (Float64Representable x) := by
  unfold Float64Representable; infer_instance

/-- Round `mant / 2 ^ shift` to the nearest integer, ties to even,
symmetric in sign (the IEEE rounding `big.Float` applies to the
mantissa bits below the precision). -/
def roundMantissa (mant : ℤ) (shift : ℕ) : ℤ :=
  let n := mant.natAbs
  let q := n / 2 ^ shift
  let r := n % 2 ^ shift
  let half := 2 ^ (shift - 1)
  let q' := if r < half then q
            else if half < r then q + 1
            else if q % 2 = 0 then q else q + 1
  if mant < 0 then -(q' : ℤ) else (q' : ℤ)

/-- Round a `FloatVal` to 53 significant bits, nearest ties to even:
the rounding a `new(big.Float)` receiver of `Mul` applies when both
operands have precision 53.  (Rounding the mantissa to its top 53 bits
rounds the value to 53 significant bits, for any representation.) -/
def fpRound53 (x : FloatVal) : FloatVal :=
  let b := bitlen x.mant.natAbs
  if b ≤ 53 then x
  else
    { mant := roundMantissa x.mant (b - 53), exp := x.exp + (b - 53) }

/-- Model of `new(big.Float).Mul(x, y)` for operands of precision 53:
the exact product rounded to 53 significant bits. -/
def bigFloatMul53 (x y : FloatVal) : FloatVal :=
  fpRound53 { mant := x.mant * y.mant, exp := x.exp + y.exp }

/-- Model of `big.Float.IsInt`: whether `mant * 2 ^ exp` is an
integer. -/
def FloatVal.isInt (x : FloatVal) : Bool :=
  if 0 ≤ x.exp then true else x.mant % 2 ^ (-x.exp).toNat = 0

/-- The integer value `mant * 2 ^ exp` of a `FloatVal` satisfying
`isInt` (model of `big.Float.Int`, exact on integral values). -/
def FloatVal.toInt (x : FloatVal) : ℤ :=
  if 0 ≤ x.exp then x.mant * 2 ^ x.exp.toNat else x.mant / 2 ^ (-x.exp).toNat

/-- Two `FloatVal`s denote the same real value `mant * 2 ^ exp`
(representation-independent equality, stated over ℤ by clearing the
common power of two). -/
def FloatVal.SameValue (x y : FloatVal) : Prop :=
  x.mant * 2 ^ (x.exp - min x.exp y.exp).toNat
    = y.mant * 2 ^ (y.exp - min x.exp y.exp).toNat

instance (x y : FloatVal) : Decidable (FloatVal.SameValue x y) := by
  unfold FloatVal.SameValue; infer_instance

/-- Model of `conversionFactor = big.NewFloat(100000000)`
(src/gas_price.go:110): the factor taking a raw quote (tenths of gwei)
to wei. -/
def conversionFactor : FloatVal := { mant := 100000000, exp := 0 }

/-- Model of `parseGasPriceToWei` (src/gas_price.go:174-183):
`gwei := new(big.Float).Mul(big.NewFloat(raw), conversionFactor)`;
if `!gwei.IsInt()` return the non-integral error, else return
`gwei.Int(...)`. -/
def parseGasPriceToWei (raw : FloatVal) : Except GasError ℤ :=
  let gwei := bigFloatMul53 raw conversionFactor
  if gwei.isInt then Except.ok gwei.toInt else Except.error GasError.nonIntegral

/-- `GasPriority` (src/gas_price.go:22) is a string type alias. -/
abbrev GasPriority := String

/-- Priority accepted in under 2 minutes (src/gas_price.go:29). -/
def GasPriorityFast : GasPriority := "fast"

/-- Priority accepted in under 30 seconds (src/gas_price.go:32). -/
def GasPriorityFastest : GasPriority := "fastest"

/-- Cheapest priority (src/gas_price.go:35). -/
def GasPrioritySafeLow : GasPriority := "safeLow"

/-- Average priority (src/gas_price.go:38). -/
def GasPriorityAverage : GasPriority := "average"

/-- Model of `ethGasStationResponse` (src/gas_price.go:112-117): the
four `float64` quote fields decoded from the oracle's JSON. -/
structure ethGasStationResponse where
  Fast : FloatVal
  Fastest : FloatVal
  SafeLow : FloatVal
  Average : FloatVal
deriving DecidableEq

/-- Model of `parseSuggestedGasPrice` (src/gas_price.go:157-170): the
`switch` on the priority string, converting the selected quote, with
the unknown-priority error on the `default` branch. -/
def parseSuggestedGasPrice (priority : GasPriority) (prices : ethGasStationResponse) :
    Except GasError ℤ :=
  if priority = GasPriorityFast then parseGasPriceToWei prices.Fast
  else if priority = GasPriorityFastest then parseGasPriceToWei prices.Fastest
  else if priority = GasPrioritySafeLow then parseGasPriceToWei prices.SafeLow
  else if priority = GasPriorityAverage then parseGasPriceToWei prices.Average
  else Except.error GasError.unknownTier

/-- Model of the `gasPriceManager` struct (src/gas_price.go:81-88).
`fetchedAt` is in nanoseconds, `maxResultAge` a nanosecond duration.
The mutex is not modelled: calls are serialized by it, so the embedding
treats each call as atomic. -/
structure gasPriceManager where
  fetchedAt : ℤ
  maxResultAge : ℤ
  latestResponse : ethGasStationResponse
deriving DecidableEq

/-- Model of `(*gasPriceManager).suggestCachedGasPrice`
(src/gas_price.go:90-105), called at time `now` with `fetched` the
outcome `loadGasPrices` would produce if called.  Returns the Go
result, the manager state after the call, and whether `loadGasPrices`
was called.  `time.Since(m.fetchedAt) > m.maxResultAge` is
`now - m.fetchedAt > m.maxResultAge`; on a successful refresh the code
stores the new response and sets `fetchedAt` to the current time. -/
def suggestCachedGasPrice (m : gasPriceManager) (now : ℤ)
    (fetched : Except GasError ethGasStationResponse) (priority : GasPriority) :
    Except GasError ℤ × gasPriceManager × Bool :=
  if now - m.fetchedAt > m.maxResultAge then
    match fetched with
    | Except.error e => (Except.error e, m, true)
    | Except.ok prices =>
        (parseSuggestedGasPrice priority prices,
          { m with latestResponse := prices, fetchedAt := now }, true)
  else
    (parseSuggestedGasPrice priority m.latestResponse, m, false)

/-- Model of `NewGasPriceSuggester` (src/gas_price.go:64-79), called at
time `t0` with `fetched` the outcome of its one eager `loadGasPrices`
call: on failure it returns `(nil, err)`; on success it returns the
closure over a manager holding the fetched response, the construction
time, and `maxResultAge`. -/
def NewGasPriceSuggester (maxResultAge : ℤ) (t0 : ℤ)
    (fetched : Except GasError ethGasStationResponse) :
    Except GasError gasPriceManager :=
  match fetched with
  | Except.error e => Except.error e
  | Except.ok prices =>
      Except.ok { fetchedAt := t0, maxResultAge := maxResultAge, latestResponse := prices }

/-- `time.Hour` in nanoseconds. -/
def timeHour : ℤ := 3600000000000

/-- The quote set of the spec's concrete scenario:
`{fast: 400, fastest: 500, safeLow: 50, average: 200}`. -/
def sampleResponse : ethGasStationResponse :=
  { Fast := ⟨400, 0⟩, Fastest := ⟨500, 0⟩, SafeLow := ⟨50, 0⟩, Average := ⟨200, 0⟩ }

/-! Helper lemmas: `isInt` and `toInt` are functions of the denoted
value `mant * 2 ^ exp`, not of the chosen representation. -/

theorem FloatVal.isInt_mk (m e : ℤ) :
    FloatVal.isInt ⟨m, e⟩ = if 0 ≤ e then true else decide (m % 2 ^ (-e).toNat = 0) := rfl

theorem FloatVal.toInt_mk (m e : ℤ) :
    FloatVal.toInt ⟨m, e⟩ = if 0 ≤ e then m * 2 ^ e.toNat else m / 2 ^ (-e).toNat := rfl

theorem FloatVal.isInt_shift (m e : ℤ) (d : ℕ) :
    FloatVal.isInt ⟨m * 2 ^ d, e⟩ = FloatVal.isInt ⟨m, e + d⟩ := by
  rw [FloatVal.isInt_mk, FloatVal.isInt_mk]
  by_cases h0 : (0 : ℤ) ≤ e
  · rw [if_pos h0, if_pos (by omega)]
  · by_cases h1 : (0 : ℤ) ≤ e + d
    · rw [if_neg h0, if_pos h1, decide_eq_true_eq]
      have hk : (-e).toNat ≤ d := by omega
      exact Int.emod_eq_zero_of_dvd (dvd_mul_of_dvd_right (pow_dvd_pow 2 hk) m)
    · rw [if_neg h0, if_neg h1, decide_eq_decide]
      have hK : (-e).toNat = d + (-(e + d)).toNat := by omega
      rw [hK, pow_add, ← Int.dvd_iff_emod_eq_zero, ← Int.dvd_iff_emod_eq_zero,
        mul_comm ((2 : ℤ) ^ d) ((2 : ℤ) ^ (-(e + d)).toNat)]
      exact mul_dvd_mul_iff_right (pow_ne_zero d two_ne_zero)

theorem FloatVal.toInt_shift (m e : ℤ) (d : ℕ) :
    FloatVal.toInt ⟨m * 2 ^ d, e⟩ = FloatVal.toInt ⟨m, e + d⟩ := by
  rw [FloatVal.toInt_mk, FloatVal.toInt_mk]
  by_cases h0 : (0 : ℤ) ≤ e
  · rw [if_pos h0, if_pos (by omega)]
    have h2 : (e + d).toNat = e.toNat + d := by omega
    rw [h2, pow_add]
    ring
  · by_cases h1 : (0 : ℤ) ≤ e + d
    · rw [if_neg h0, if_pos h1]
      have hd : d = (e + d).toNat + (-e).toNat := by omega
      calc m * 2 ^ d / 2 ^ (-e).toNat
          = m * 2 ^ (e + d).toNat * 2 ^ (-e).toNat / 2 ^ (-e).toNat := by
            rw [mul_assoc, ← pow_add, ← hd]
        _ = m * 2 ^ (e + d).toNat := Int.mul_ediv_cancel _ (pow_ne_zero _ two_ne_zero)
    · rw [if_neg h0, if_neg h1]
      have hK : (-e).toNat = d + (-(e + d)).toNat := by omega
      rw [hK, pow_add, mul_comm m ((2 : ℤ) ^ d)]
      exact Int.mul_ediv_mul_of_pos _ _ (pow_pos (by norm_num) d)

theorem FloatVal.isInt_congr {x y : FloatVal} (h : x.SameValue y) : x.isInt = y.isInt := by
  obtain ⟨xm, xe⟩ := x
  obtain ⟨ym, ye⟩ := y
  have hxy : xm * 2 ^ (xe - min xe ye).toNat = ym * 2 ^ (ye - min xe ye).toNat := h
  have hx : xe = min xe ye + ((xe - min xe ye).toNat : ℤ) := by
    have := min_le_left xe ye; omega
  have hy : ye = min xe ye + ((ye - min xe ye).toNat : ℤ) := by
    have := min_le_right xe ye; omega
  calc FloatVal.isInt ⟨xm, xe⟩
      = FloatVal.isInt ⟨xm, min xe ye + ((xe - min xe ye).toNat : ℤ)⟩ := by rw [← hx]
    _ = FloatVal.isInt ⟨xm * 2 ^ (xe - min xe ye).toNat, min xe ye⟩ :=
        (FloatVal.isInt_shift xm (min xe ye) _).symm
    _ = FloatVal.isInt ⟨ym * 2 ^ (ye - min xe ye).toNat, min xe ye⟩ := by rw [hxy]
    _ = FloatVal.isInt ⟨ym, min xe ye + ((ye - min xe ye).toNat : ℤ)⟩ :=
        FloatVal.isInt_shift ym (min xe ye) _
    _ = FloatVal.isInt ⟨ym, ye⟩ := by rw [← hy]

theorem FloatVal.toInt_congr {x y : FloatVal} (h : x.SameValue y) : x.toInt = y.toInt := by
  obtain ⟨xm, xe⟩ := x
  obtain ⟨ym, ye⟩ := y
  have hxy : xm * 2 ^ (xe - min xe ye).toNat = ym * 2 ^ (ye - min xe ye).toNat := h
  have hx : xe = min xe ye + ((xe - min xe ye).toNat : ℤ) := by
    have := min_le_left xe ye; omega
  have hy : ye = min xe ye + ((ye - min xe ye).toNat : ℤ) := by
    have := min_le_right xe ye; omega
  calc FloatVal.toInt ⟨xm, xe⟩
      = FloatVal.toInt ⟨xm, min xe ye + ((xe - min xe ye).toNat : ℤ)⟩ := by rw [← hx]
    _ = FloatVal.toInt ⟨xm * 2 ^ (xe - min xe ye).toNat, min xe ye⟩ :=
        (FloatVal.toInt_shift xm (min xe ye) _).symm
    _ = FloatVal.toInt ⟨ym * 2 ^ (ye - min xe ye).toNat, min xe ye⟩ := by rw [hxy]
    _ = FloatVal.toInt ⟨ym, min xe ye + ((ye - min xe ye).toNat : ℤ)⟩ :=
        FloatVal.toInt_shift ym (min xe ye) _
    _ = FloatVal.toInt ⟨ym, ye⟩ := by rw [← hy]

/-- C1 (counterexample): the raw value `r = 2^53 - 1 = 9007199254740991`
is a finite `float64` and `r * 1e8 = 900719925474099100000000` is a
mathematically exact integer, yet `parseGasPriceToWei r` returns
`900719925474099065782272`: the 72-bit exact product is rounded to the
53-bit precision of the `big.Float` receiver of `Mul`, so the converter
does not return `r * 1e8` exactly over the full representable range. -/
theorem C1_counterexample :
    Float64Representable ⟨9007199254740991, 0⟩ ∧
    FloatVal.isInt ⟨9007199254740991 * 100000000, 0⟩ = true ∧
    FloatVal.toInt ⟨9007199254740991 * 100000000, 0⟩ = 900719925474099100000000 ∧
    parseGasPriceToWei ⟨9007199254740991, 0⟩ = Except.ok 900719925474099065782272 ∧
    parseGasPriceToWei ⟨9007199254740991, 0⟩ ≠ Except.ok 900719925474099100000000 :=
  ⟨by decide, by decide, by decide, by decide, by decide⟩

/-- C1 (amended): for every representable raw value `r` whose product
`r * 1e8` is a mathematically exact integer AND is not altered by the
rounding to 53 significant bits that `big.Float.Mul` performs (the
product of the 53-bit operands is again representable at precision 53),
`parseGasPriceToWei r` succeeds and returns exactly the integer
`r * 1e8`. -/
theorem C1_amended_exact_conversion (x : FloatVal)
    (hrep : Float64Representable x)
    (hint : FloatVal.isInt ⟨x.mant * 100000000, x.exp⟩ = true)
    (hexact : FloatVal.SameValue (bigFloatMul53 x conversionFactor)
      ⟨x.mant * 100000000, x.exp⟩) :
    parseGasPriceToWei x = Except.ok (FloatVal.toInt ⟨x.mant * 100000000, x.exp⟩) := by
  have h1 := FloatVal.isInt_congr hexact
  have h2 := FloatVal.toInt_congr hexact
  simp only [parseGasPriceToWei, h1, h2, hint, if_true]

/-- C1 (witness): the conversion at `r = 3`. -/
theorem C1_amended_witness :
    parseGasPriceToWei ⟨3, 0⟩ = Except.ok (FloatVal.toInt ⟨3 * 100000000, 0⟩) :=
  C1_amended_exact_conversion ⟨3, 0⟩ (by decide) (by decide) (by decide)

/-- C2 (counterexample): the raw value `r = (2^52 + 1) * 2^(-9)` is a
finite `float64` and `r * 1e8` is NOT a mathematically exact integer,
yet `parseGasPriceToWei r` does not fail: the 53-bit rounding inside
`big.Float.Mul` lands on the integer `879609302220800131072`, which the
converter returns. -/
theorem C2_counterexample :
    Float64Representable ⟨4503599627370497, -9⟩ ∧
    FloatVal.isInt ⟨4503599627370497 * 100000000, -9⟩ = false ∧
    parseGasPriceToWei ⟨4503599627370497, -9⟩ = Except.ok 879609302220800131072 ∧
    parseGasPriceToWei ⟨4503599627370497, -9⟩ ≠ Except.error GasError.nonIntegral :=
  ⟨by decide, by decide, by decide, by decide⟩

/-- C2 (amended): for every representable raw value `r` whose product
`r * 1e8` is not a mathematically exact integer, provided the product
is not altered by the 53-bit rounding of `big.Float.Mul`,
`parseGasPriceToWei r` returns a nil amount together with the
non-integral-conversion error. -/
theorem C2_amended_nonintegral_rejected (x : FloatVal)
    (hrep : Float64Representable x)
    (hnotint : FloatVal.isInt ⟨x.mant * 100000000, x.exp⟩ = false)
    (hexact : FloatVal.SameValue (bigFloatMul53 x conversionFactor)
      ⟨x.mant * 100000000, x.exp⟩) :
    parseGasPriceToWei x = Except.error GasError.nonIntegral := by
  have h1 := FloatVal.isInt_congr hexact
  simp only [parseGasPriceToWei, h1, hnotint, Bool.false_eq_true, if_false]

/-- C2 (witness): the conversion at `r = 2^(-9)`, where
`r * 1e8 = 195312.5`. -/
theorem C2_amended_witness :
    parseGasPriceToWei ⟨1, -9⟩ = Except.error GasError.nonIntegral :=
  C2_amended_nonintegral_rejected ⟨1, -9⟩ (by decide) (by decide) (by decide)

/-- C10 (counterexample): for the negative raw value
`r = -(2^53 - 1)` the product `r * 1e8` is a mathematically exact
(negative) integer, and `parseGasPriceToWei` does succeed, but — as in
C1 — returns the 53-bit-rounded integer `-900719925474099065782272`
instead of `r * 1e8 = -900719925474099100000000`, so the claim's
"returns that non-positive integer" fails as stated for the full
negative range. -/
theorem C10_counterexample :
    Float64Representable ⟨-9007199254740991, 0⟩ ∧
    FloatVal.isInt ⟨-9007199254740991 * 100000000, 0⟩ = true ∧
    parseGasPriceToWei ⟨-9007199254740991, 0⟩ = Except.ok (-900719925474099065782272) ∧
    parseGasPriceToWei ⟨-9007199254740991, 0⟩ ≠
      Except.ok (FloatVal.toInt ⟨-9007199254740991 * 100000000, 0⟩) :=
  ⟨by decide, by decide, by decide, by decide⟩

/-- C10 (amended): `parseGasPriceToWei` imposes no sign or range
restriction: for every representable raw value `r ≤ 0` whose product
`r * 1e8` is a mathematically exact integer and is unaffected by the
53-bit rounding of `big.Float.Mul`, the converter succeeds and returns
that non-positive integer (e.g. `-100000000` for `r = -1`) rather than
rejecting a negative or zero price. -/
theorem C10_amended_no_sign_restriction (x : FloatVal)
    (hrep : Float64Representable x)
    (hneg : x.mant ≤ 0)
    (hint : FloatVal.isInt ⟨x.mant * 100000000, x.exp⟩ = true)
    (hexact : FloatVal.SameValue (bigFloatMul53 x conversionFactor)
      ⟨x.mant * 100000000, x.exp⟩) :
    parseGasPriceToWei x = Except.ok (FloatVal.toInt ⟨x.mant * 100000000, x.exp⟩) ∧
    FloatVal.toInt ⟨x.mant * 100000000, x.exp⟩ ≤ 0 := by
  have h1 := FloatVal.isInt_congr hexact
  have h2 := FloatVal.toInt_congr hexact
  constructor
  · simp only [parseGasPriceToWei, h1, h2, hint, if_true]
  · have hM : x.mant * 100000000 ≤ 0 := by nlinarith
    rw [FloatVal.toInt_mk]
    by_cases h0 : (0 : ℤ) ≤ x.exp
    · rw [if_pos h0]
      have : (0 : ℤ) ≤ 2 ^ x.exp.toNat := by positivity
      nlinarith
    · rw [if_neg h0]
      calc x.mant * 100000000 / 2 ^ (-x.exp).toNat
          ≤ 0 / 2 ^ (-x.exp).toNat := by
            exact Int.ediv_le_ediv (by positivity) hM
        _ = 0 := Int.zero_ediv _

/-- C10 (witness): the conversion at `r = -1` returns `-100000000`. -/
theorem C10_amended_witness :
    parseGasPriceToWei ⟨-1, 0⟩ = Except.ok (FloatVal.toInt ⟨-1 * 100000000, 0⟩) ∧
    FloatVal.toInt ⟨-1 * 100000000, 0⟩ ≤ 0 :=
  C10_amended_no_sign_restriction ⟨-1, 0⟩ (by decide) (by decide) (by decide) (by decide)

/-- Helper: an unrecognized priority hits the `default` branch of the
`switch` in `parseSuggestedGasPrice`, for any quote set. -/
theorem parseSuggestedGasPrice_unknown (priority : GasPriority)
    (prices : ethGasStationResponse)
    (htier : priority ∉ ["fast", "fastest", "safeLow", "average"]) :
    parseSuggestedGasPrice priority prices = Except.error GasError.unknownTier := by
  simp only [List.mem_cons, List.not_mem_nil, or_false, not_or] at htier
  obtain ⟨h1, h2, h3, h4⟩ := htier
  simp [parseSuggestedGasPrice, GasPriorityFast, GasPriorityFastest,
    GasPrioritySafeLow, GasPriorityAverage, h1, h2, h3, h4]

/-- C3: when the stored result is stale and the oracle fetch fails, the
call returns a nil amount together with the fetch error, and the
manager state — both `latestResponse` and `fetchedAt` — is returned
exactly as it was before the call. -/
theorem C3_failed_refresh_preserves_cache (m : gasPriceManager) (now : ℤ)
    (e : GasError) (priority : GasPriority)
    (hstale : now - m.fetchedAt > m.maxResultAge) :
    suggestCachedGasPrice m now (Except.error e) priority
      = (Except.error e, m, true) := by
  unfold suggestCachedGasPrice
  rw [if_pos hstale]

/-- C3 (witness): a stale cache whose refresh fails keeps its state. -/
theorem C3_witness :
    suggestCachedGasPrice ⟨0, 0, sampleResponse⟩ 1
        (Except.error (GasError.fetch "connection refused")) GasPriorityFast
      = (Except.error (GasError.fetch "connection refused"),
          ⟨0, 0, sampleResponse⟩, true) :=
  C3_failed_refresh_preserves_cache ⟨0, 0, sampleResponse⟩ 1
    (GasError.fetch "connection refused") GasPriorityFast (by decide)

/-- C4: for a suggester built with `maxResultAge` = one hour, two calls
whose times are within one hour of the construction-time fetch both
answer from the cache: no oracle fetch happens in either call (the
total fetch count including the constructor's eager fetch stays 1,
whatever the oracle would have returned), and both calls return the
same integer amount. -/
theorem C4_cached_window_single_fetch (prices : ethGasStationResponse)
    (tier : GasPriority) (t0 t1 t2 : ℤ)
    (f1 f2 : Except GasError ethGasStationResponse) (m0 : gasPriceManager) (a : ℤ)
    (hm0 : NewGasPriceSuggester timeHour t0 (Except.ok prices) = Except.ok m0)
    (h1 : t1 - t0 ≤ timeHour) (h2 : t2 - t0 ≤ timeHour)
    (hok : parseSuggestedGasPrice tier prices = Except.ok a) :
    (suggestCachedGasPrice m0 t1 f1 tier).1 = Except.ok a ∧
    (suggestCachedGasPrice (suggestCachedGasPrice m0 t1 f1 tier).2.1 t2 f2 tier).1
      = Except.ok a ∧
    (if (suggestCachedGasPrice m0 t1 f1 tier).2.2 then 1 else 0)
      + (if (suggestCachedGasPrice (suggestCachedGasPrice m0 t1 f1 tier).2.1
            t2 f2 tier).2.2 then 1 else 0) + 1 = 1 := by
  simp only [NewGasPriceSuggester, Except.ok.injEq] at hm0
  subst hm0
  have e1 : suggestCachedGasPrice ⟨t0, timeHour, prices⟩ t1 f1 tier
      = (Except.ok a, ⟨t0, timeHour, prices⟩, false) := by
    unfold suggestCachedGasPrice
    rw [if_neg (show ¬ (t1 - t0 > timeHour) by omega)]
    simp [hok]
  have e2 : suggestCachedGasPrice ⟨t0, timeHour, prices⟩ t2 f2 tier
      = (Except.ok a, ⟨t0, timeHour, prices⟩, false) := by
    unfold suggestCachedGasPrice
    rw [if_neg (show ¬ (t2 - t0 > timeHour) by omega)]
    simp [hok]
  simp [e1, e2]

/-- C4 (witness): two cached calls 1µs and 2µs after construction. -/
theorem C4_witness :
    (suggestCachedGasPrice ⟨0, timeHour, sampleResponse⟩ 1000
        (Except.error (GasError.fetch "down")) GasPriorityFast).1
      = Except.ok 40000000000 ∧
    (suggestCachedGasPrice
        (suggestCachedGasPrice ⟨0, timeHour, sampleResponse⟩ 1000
          (Except.error (GasError.fetch "down")) GasPriorityFast).2.1 2000
        (Except.error (GasError.fetch "down")) GasPriorityFast).1
      = Except.ok 40000000000 ∧
    (if (suggestCachedGasPrice ⟨0, timeHour, sampleResponse⟩ 1000
          (Except.error (GasError.fetch "down")) GasPriorityFast).2.2 then 1 else 0)
      + (if (suggestCachedGasPrice
            (suggestCachedGasPrice ⟨0, timeHour, sampleResponse⟩ 1000
              (Except.error (GasError.fetch "down")) GasPriorityFast).2.1 2000
            (Except.error (GasError.fetch "down")) GasPriorityFast).2.2
          then 1 else 0) + 1 = 1 :=
  C4_cached_window_single_fetch sampleResponse GasPriorityFast 0 1000 2000
    (Except.error (GasError.fetch "down")) (Except.error (GasError.fetch "down"))
    ⟨0, timeHour, sampleResponse⟩ 40000000000
    (by decide) (by decide) (by decide) (by decide)

/-- C5 (counterexample): with `maxResultAge = 0`, a call arriving at
exactly the stored `fetchedAt` instant (`time.Since` returns 0) does
NOT trigger a fetch: the staleness test
`time.Since(m.fetchedAt) > m.maxResultAge` is strict and `0 > 0` is
false, so the call answers from the cache — contrary to the claim that
the staleness test is true on every call regardless of how recently the
previous fetch completed. -/
theorem C5_counterexample :
    (suggestCachedGasPrice ⟨0, 0, sampleResponse⟩ 0 (Except.ok sampleResponse)
        GasPriorityFast).2.2 = false ∧
    (suggestCachedGasPrice ⟨0, 0, sampleResponse⟩ 0 (Except.ok sampleResponse)
        GasPriorityFast).1 = Except.ok 40000000000 :=
  ⟨by decide, by decide⟩

/-- C5 (amended): with `maxResultAge = 0`, every call at a time
strictly later than the stored `fetchedAt` — i.e. whenever any nonzero
time has elapsed since the previous fetch — triggers a fresh oracle
fetch. -/
theorem C5_amended_always_stale (m : gasPriceManager) (now : ℤ)
    (f : Except GasError ethGasStationResponse) (priority : GasPriority)
    (hage : m.maxResultAge = 0) (hadv : m.fetchedAt < now) :
    (suggestCachedGasPrice m now f priority).2.2 = true := by
  unfold suggestCachedGasPrice
  rw [if_pos (by omega)]
  cases f <;> rfl

/-- C5 (witness): one nanosecond after the stored fetch, a
`maxResultAge = 0` suggester refetches. -/
theorem C5_amended_witness :
    (suggestCachedGasPrice ⟨0, 0, sampleResponse⟩ 1 (Except.ok sampleResponse)
        GasPriorityFast).2.2 = true :=
  C5_amended_always_stale ⟨0, 0, sampleResponse⟩ 1 (Except.ok sampleResponse)
    GasPriorityFast (by decide) (by decide)

/-- C6 (counterexample): a call with the unknown priority "turbo" on a
STALE cache whose refresh fails returns the fetch error, not the
unknown-tier error — the refresh is attempted (and its failure
reported) before the tier is ever examined, so the claim's
unconditional "returns the UnknownTier error" fails. -/
theorem C6_counterexample :
    ("turbo" : GasPriority) ∉ ["fast", "fastest", "safeLow", "average"] ∧
    (suggestCachedGasPrice ⟨0, 0, sampleResponse⟩ 5
        (Except.error (GasError.fetch "boom")) "turbo").1
      = Except.error (GasError.fetch "boom") ∧
    (suggestCachedGasPrice ⟨0, 0, sampleResponse⟩ 5
        (Except.error (GasError.fetch "boom")) "turbo").1
      ≠ Except.error GasError.unknownTier :=
  ⟨by decide, by decide, by decide⟩

/-- C6 (amended): for every priority outside
{"fast", "fastest", "safeLow", "average"}: if the cached snapshot is
fresh, the call returns a nil amount with the unknown-tier error,
performs no oracle fetch and leaves the cache unchanged; and whenever
the call does not run into a failed refresh (in particular whenever the
fetch outcome would be a success), it returns the unknown-tier error.
A stale call whose refresh fails returns the fetch error instead. -/
theorem C6_amended_unknown_tier (m : gasPriceManager) (now : ℤ)
    (f : Except GasError ethGasStationResponse) (priority : GasPriority)
    (htier : priority ∉ ["fast", "fastest", "safeLow", "average"]) :
    (now - m.fetchedAt ≤ m.maxResultAge →
      suggestCachedGasPrice m now f priority
        = (Except.error GasError.unknownTier, m, false)) ∧
    (∀ prices : ethGasStationResponse, f = Except.ok prices →
      (suggestCachedGasPrice m now f priority).1
        = Except.error GasError.unknownTier) := by
  constructor
  · intro hfresh
    unfold suggestCachedGasPrice
    rw [if_neg (by omega)]
    rw [parseSuggestedGasPrice_unknown priority m.latestResponse htier]
  · intro prices hf
    subst hf
    unfold suggestCachedGasPrice
    by_cases hs : now - m.fetchedAt > m.maxResultAge
    · rw [if_pos hs]
      simp [parseSuggestedGasPrice_unknown priority prices htier]
    · rw [if_neg hs]
      simp [parseSuggestedGasPrice_unknown priority m.latestResponse htier]

/-- C6 (witness): a fresh cache answers "turbo" with the unknown-tier
error without fetching. -/
theorem C6_amended_witness :
    suggestCachedGasPrice ⟨0, 10, sampleResponse⟩ 5 (Except.ok sampleResponse) "turbo"
      = (Except.error GasError.unknownTier, ⟨0, 10, sampleResponse⟩, false) :=
  (C6_amended_unknown_tier ⟨0, 10, sampleResponse⟩ 5 (Except.ok sampleResponse)
    "turbo" (by decide)).1 (by decide)

/-- C7: `NewGasPriceSuggester` consumes exactly one eager fetch
outcome: a failed fetch makes construction fail with that same error
(no suggester with uninitialized cache state exists), and a successful
fetch yields a suggester whose initial cache holds the fetched quote
set stamped with the construction time and the configured maximum
age. -/
theorem C7_construction_eager_fetch (maxAge t0 : ℤ) :
    (∀ e : GasError,
      NewGasPriceSuggester maxAge t0 (Except.error e) = Except.error e) ∧
    (∀ prices : ethGasStationResponse,
      NewGasPriceSuggester maxAge t0 (Except.ok prices)
        = Except.ok ⟨t0, maxAge, prices⟩) :=
  ⟨fun _ => rfl, fun _ => rfl⟩

/-- C8: on the quote set `{fast: 400, fastest: 500, safeLow: 50,
average: 200}`, the "fast" tier converts to `40000000000` wei and the
"safeLow" tier to `5000000000` wei, each with a nil error. -/
theorem C8_concrete_scenario :
    parseSuggestedGasPrice GasPriorityFast sampleResponse = Except.ok 40000000000 ∧
    parseSuggestedGasPrice GasPrioritySafeLow sampleResponse = Except.ok 5000000000 :=
  ⟨by decide, by decide⟩

/-- C9: a stale-cache call with an unrecognized priority still fetches
first: on a successful fetch the cached quote set and timestamp are
replaced, even though the call then returns the unknown-tier error —
an UnknownTier failure can mutate the cache. -/
theorem C9_stale_unknown_tier_mutates_cache (m : gasPriceManager) (now : ℤ)
    (prices : ethGasStationResponse) (priority : GasPriority)
    (htier : priority ∉ ["fast", "fastest", "safeLow", "average"])
    (hstale : now - m.fetchedAt > m.maxResultAge) :
    suggestCachedGasPrice m now (Except.ok prices) priority
      = (Except.error GasError.unknownTier,
          { m with latestResponse := prices, fetchedAt := now }, true) := by
  unfold suggestCachedGasPrice
  rw [if_pos hstale]
  simp [parseSuggestedGasPrice_unknown priority prices htier]

/-- C9 (witness): a stale "turbo" call replaces the cached snapshot
and timestamp while failing with the unknown-tier error. -/
theorem C9_witness :
    suggestCachedGasPrice ⟨0, 0, sampleResponse⟩ 7
        (Except.ok ⟨⟨401, 0⟩, ⟨501, 0⟩, ⟨51, 0⟩, ⟨201, 0⟩⟩) "turbo"
      = (Except.error GasError.unknownTier,
          ⟨7, 0, ⟨⟨401, 0⟩, ⟨501, 0⟩, ⟨51, 0⟩, ⟨201, 0⟩⟩⟩, true) :=
  C9_stale_unknown_tier_mutates_cache ⟨0, 0, sampleResponse⟩ 7
    ⟨⟨401, 0⟩, ⟨501, 0⟩, ⟨51, 0⟩, ⟨201, 0⟩⟩ "turbo" (by decide) (by decide)

end GoGas
